import Mathlib

/-!
Verification development for the Example-Mining-Website repository:
a static asset dev server (src/unnamed/part_000) and a load-in
animation overlay (src/components/LoadInOverlay.tsx, with the
session-flag hook src/hooks/useSessionOnce.ts).

The server's request handler and the overlay's grid/odometer helpers
are shallowly embedded as executable Lean functions; the overlay's
phase sequencer is embedded as a transition relation derived from the
component's effects and callbacks.
-/

/- ================================================================ -/
/- Static asset server (src/unnamed/part_000)                        -/
/- ================================================================ -/

/-- Value of one hex digit, as used by percent-decoding
(`decodeURIComponent` accepts both cases). -/
def hexVal (c : Char) : Option Nat :=
  if '0' ≤ c ∧ c ≤ '9' then some (c.toNat - 48)
  else if 'a' ≤ c ∧ c ≤ 'f' then some (c.toNat - 87)
  else if 'A' ≤ c ∧ c ≤ 'F' then some (c.toNat - 55)
  else none

/-- Percent-decoding of a character list, modelling JavaScript's
`decodeURIComponent`: each `%XX` pair contributes one byte, the byte
stream must be valid UTF-8 (invalid lead bytes, truncated or overlong
sequences, and surrogate encodings throw `URIError`, modelled as
`none`), and unescaped characters pass through unchanged. -/
def decodePercent : List Char → Option (List Char)
  | [] => some []
  | '%' :: h1 :: l1 :: rest =>
    match hexVal h1, hexVal l1 with
    | some a, some b0 =>
      let b := 16 * a + b0
      if b < 0x80 then
        (decodePercent rest).map (fun t => Char.ofNat b :: t)
      else if 0xC2 ≤ b ∧ b ≤ 0xDF then
        match rest with
        | '%' :: h2 :: l2 :: rest2 =>
          match hexVal h2, hexVal l2 with
          | some a2, some b2 =>
            let c1 := 16 * a2 + b2
            if 0x80 ≤ c1 ∧ c1 ≤ 0xBF then
              (decodePercent rest2).map
                (fun t => Char.ofNat ((b - 0xC0) * 0x40 + (c1 - 0x80)) :: t)
            else none
          | _, _ => none
        | _ => none
      else if 0xE0 ≤ b ∧ b ≤ 0xEF then
        match rest with
        | '%' :: h2 :: l2 :: '%' :: h3 :: l3 :: rest2 =>
          match hexVal h2, hexVal l2, hexVal h3, hexVal l3 with
          | some a2, some b2, some a3, some b3 =>
            let c1 := 16 * a2 + b2
            let c2 := 16 * a3 + b3
            let lo1 := if b = 0xE0 then 0xA0 else 0x80
            let hi1 := if b = 0xED then 0x9F else 0xBF
            if lo1 ≤ c1 ∧ c1 ≤ hi1 ∧ 0x80 ≤ c2 ∧ c2 ≤ 0xBF then
              (decodePercent rest2).map
                (fun t =>
                  Char.ofNat
                    ((b - 0xE0) * 0x1000 + (c1 - 0x80) * 0x40 + (c2 - 0x80)) :: t)
            else none
          | _, _, _, _ => none
        | _ => none
      else if 0xF0 ≤ b ∧ b ≤ 0xF4 then
        match rest with
        | '%' :: h2 :: l2 :: '%' :: h3 :: l3 :: '%' :: h4 :: l4 :: rest2 =>
          match hexVal h2, hexVal l2, hexVal h3, hexVal l3, hexVal h4, hexVal l4 with
          | some a2, some b2, some a3, some b3, some a4, some b4 =>
            let c1 := 16 * a2 + b2
            let c2 := 16 * a3 + b3
            let c3 := 16 * a4 + b4
            let lo1 := if b = 0xF0 then 0x90 else 0x80
            let hi1 := if b = 0xF4 then 0x8F else 0xBF
            if lo1 ≤ c1 ∧ c1 ≤ hi1 ∧ 0x80 ≤ c2 ∧ c2 ≤ 0xBF ∧ 0x80 ≤ c3 ∧ c3 ≤ 0xBF then
              (decodePercent rest2).map
                (fun t =>
                  Char.ofNat
                    ((b - 0xF0) * 0x40000 + (c1 - 0x80) * 0x1000 +
                      (c2 - 0x80) * 0x40 + (c3 - 0x80)) :: t)
            else none
          | _, _, _, _, _, _ => none
        | _ => none
      else none
    | _, _ => none
  | '%' :: _ => none
  | c :: rest => (decodePercent rest).map (fun t => c :: t)

/-- `decodeURIComponent`, returning `none` where the JavaScript
function throws `URIError`. -/
def decodeURIComponentM (s : String) : Option String :=
  (decodePercent s.data).map String.mk

/-- `pat.isPrefixOf` based substring test, modelling JavaScript's
`String.prototype.includes`. -/
def substrAux (pat : List Char) : List Char → Bool
  | [] => pat.isEmpty
  | c :: rest => pat.isPrefixOf (c :: rest) || substrAux pat rest

/-- `s.includes(pat)` from JavaScript. -/
def includesSub (s pat : String) : Bool := substrAux pat.data s.data

/-- `url.includes('..')` (part_000 line 41). -/
def hasDotDot (s : String) : Bool := includesSub s ".."

/-- Remove the first occurrence of `pat`, modelling
`range.replace(/bytes=/, '')` (a non-global regex replaces only the
first occurrence). -/
def removeFirst (pat : List Char) : List Char → List Char
  | [] => []
  | c :: rest =>
    if pat.isPrefixOf (c :: rest) then (c :: rest).drop pat.length
    else c :: removeFirst pat rest

/-- Split a character list on a separator character; like
JavaScript's `split` with a one-character separator. -/
def splitChar (sep : Char) : List Char → List (List Char)
  | [] => [[]]
  | c :: rest =>
    let r := splitChar sep rest
    if c == sep then [] :: r
    else
      match r with
      | [] => [[c]]
      | g :: gs => (c :: g) :: gs

/-- `s.split(sep)` for a one-character separator. -/
def stringSplitChar (sep : Char) (s : String) : List String :=
  (splitChar sep s.data).map String.mk

/-- Leading decimal digits of a character list, `none` when there are
none (JavaScript `parseInt` yields `NaN` then). -/
def leadingNat (cs : List Char) : Option Nat :=
  let ds := cs.takeWhile Char.isDigit
  if ds.isEmpty then none
  else some (ds.foldl (fun a c => a * 10 + (c.toNat - 48)) 0)

/-- JavaScript `parseInt(s, 10)`: skip leading whitespace, optional
sign, then leading digits; `none` models `NaN`. -/
def parseIntM (s : String) : Option Int :=
  match s.data.dropWhile Char.isWhitespace with
  | '-' :: rest => (leadingNat rest).map (fun n => -(n : Int))
  | '+' :: rest => (leadingNat rest).map (fun n => (n : Int))
  | cs => (leadingNat cs).map (fun n => (n : Int))

/-- JavaScript numbers used in the Range branch: `none` models `NaN`
(produced by `parseInt` on malformed input and propagated by
arithmetic and `Math.min`). -/
def jnumStr : Option Int → String
  | none => "NaN"
  | some i => toString i

/-- Addition propagating NaN. -/
def jadd : Option Int → Option Int → Option Int
  | some a, some b => some (a + b)
  | _, _ => none

/-- Subtraction propagating NaN. -/
def jsub : Option Int → Option Int → Option Int
  | some a, some b => some (a - b)
  | _, _ => none

/-- `Math.min`, which returns NaN when either argument is NaN. -/
def jmin : Option Int → Option Int → Option Int
  | some a, some b => some (min a b)
  | _, _ => none

/-- The MIME table (part_000 lines 15-31). -/
def mimeTable : List (String × String) :=
  [(".html", "text/html; charset=utf-8"),
   (".css", "text/css"),
   (".js", "application/javascript"),
   (".mjs", "application/javascript"),
   (".json", "application/json"),
   (".png", "image/png"),
   (".jpg", "image/jpeg"),
   (".jpeg", "image/jpeg"),
   (".svg", "image/svg+xml"),
   (".ico", "image/x-icon"),
   (".webp", "image/webp"),
   (".woff2", "font/woff2"),
   (".woff", "font/woff"),
   (".mp4", "video/mp4"),
   (".webm", "video/webm")]

/-- `MIME[ext] || 'application/octet-stream'` (part_000 line 48). -/
def contentTypeFor (ext : String) : String :=
  (mimeTable.lookup ext).getD "application/octet-stream"

/-- The STREAMABLE extension set (part_000 line 33). -/
def STREAMABLE : List String := [".mp4", ".webm"]

/-- The COMPRESSIBLE extension set (part_000 line 35). -/
def COMPRESSIBLE : List String := [".html", ".css", ".js", ".mjs", ".json", ".svg"]

/-- Node's `path.extname`: the part of the basename from its last dot,
empty when there is no dot or the only dot starts the basename. -/
def extname (p : String) : String :=
  let base := (stringSplitChar '/' p).getLastD p
  let cs := base.data
  let r := cs.reverse
  let i := r.findIdx (fun c => c == '.')
  if i < r.length then
    let dotPos := cs.length - 1 - i
    if dotPos = 0 then "" else String.mk (cs.drop dotPos)
  else ""

/-- File metadata visible to the handler via `stat`. `mtimeMs` is
modelled as a natural number of milliseconds. -/
structure FileMeta where
  size : Nat
  mtimeMs : Nat
deriving DecidableEq, Repr

/-- The served directory, abstracted as a lookup table from joined
paths to metadata (only regular files are modelled; the claims below
concern non-directory files). -/
def FS := List (String × FileMeta)

/-- `'"' + size.toString(16) + '-' + mtimeMs.toString(16) + '"'`
(part_000 line 79). `Nat.toDigits 16` produces the same lowercase hex
as JavaScript's `toString(16)` on naturals. -/
def etagOf (m : FileMeta) : String :=
  "\"" ++ String.mk (Nat.toDigits 16 m.size) ++ "-" ++
    String.mk (Nat.toDigits 16 m.mtimeMs) ++ "\""

/-- `Cache-Control` selection (part_000 lines 83-89). -/
def cacheControlFor (ext : String) : String :=
  if ext == ".html" then "no-cache, must-revalidate"
  else if [".jpg", ".jpeg", ".png", ".webp", ".svg", ".woff2", ".woff"].contains ext then
    "public, max-age=31536000, immutable"
  else "public, max-age=86400"

/-- Response body shapes the handler can produce. `filePart` stands
for the piped `createReadStream(filePath, { start, end })`;
`compressed` for the cached brotli/gzip bytes. -/
inductive Body where
  | empty : Body
  | text : String → Body
  | fileData : Body
  | filePart : Option Int → Option Int → Body
  | compressed : String → Body
deriving DecidableEq, Repr

/-- An HTTP response: status, explicitly written headers (in
`writeHead` order), body. -/
structure Response where
  status : Nat
  headers : List (String × String)
  body : Body
deriving DecidableEq, Repr

/-- Either a written response, or `crash`: an exception escaped the
handler before the `try` block, so nothing was written. -/
inductive Outcome where
  | ok : Response → Outcome
  | crash : Outcome
deriving DecidableEq, Repr

/-- Handler result plus whether the filesystem was consulted
(`stat`/`readFile`/`createReadStream` reached). -/
structure HandlerResult where
  outcome : Outcome
  fsTouched : Bool
deriving DecidableEq, Repr

/-- The request fields the handler consults. `acceptEncoding` uses
`""` for an absent header, matching `req.headers['accept-encoding'] || ''`. -/
structure Request where
  url : String
  rangeHeader : Option String
  ifNoneMatch : Option String
  acceptEncoding : String
deriving DecidableEq, Repr

/-- Lines 39-40 of part_000 up to the decode: `'/'` becomes
`'/index.html'`, then the query string is stripped. -/
def preparedUrl (u : String) : String :=
  let url0 := if u == "/" then "/index.html" else u
  (stringSplitChar '?' url0).headD url0

/-- The directory the server serves from (`__dirname`); an abstract
constant, since the filesystem is keyed by the joined path. -/
def serverRoot : String := "/srv"

/-- The request handler of part_000 lines 38-114. `join(__dirname, url)`
is modelled as string concatenation: `url` always begins with `/` in the
claims below, and the `..`-rejection has already returned by the time
the path is joined, so no `..` normalisation can occur. The compression
cache only affects whether bytes are recomputed, never the response, so
the compressed body is modelled statelessly. -/
def handle (fs : FS) (req : Request) : HandlerResult :=
  match decodeURIComponentM (preparedUrl req.url) with
  | none => ⟨.crash, false⟩
  | some url =>
    if hasDotDot url then ⟨.ok ⟨403, [], .text "Forbidden"⟩, false⟩
    else
      let filePath := serverRoot ++ url
      let ext := extname filePath
      match List.lookup filePath fs with
      | none => ⟨.ok ⟨404, [], .text "Not found"⟩, true⟩
      | some fileStat =>
        let contentType := contentTypeFor ext
        if STREAMABLE.contains ext then
          let total := fileStat.size
          match req.rangeHeader with
          | some range =>
            let parts := stringSplitChar '-' (String.mk (removeFirst "bytes=".data range.data))
            let start := parseIntM (parts.headD "")
            let endv :=
              match parts[1]? with
              | some p =>
                if p == "" then jmin (jadd start (some 1048575)) (some ((total : Int) - 1))
                else parseIntM p
              | none => jmin (jadd start (some 1048575)) (some ((total : Int) - 1))
            ⟨.ok ⟨206,
              [("Content-Range",
                 "bytes " ++ jnumStr start ++ "-" ++ jnumStr endv ++ "/" ++ toString total),
               ("Accept-Ranges", "bytes"),
               ("Content-Length", jnumStr (jadd (jsub endv start) (some 1))),
               ("Content-Type", contentType)], .filePart start endv⟩, true⟩
          | none =>
            ⟨.ok ⟨200,
              [("Content-Length", toString total),
               ("Content-Type", contentType),
               ("Accept-Ranges", "bytes")], .fileData⟩, true⟩
        else
          let etag := etagOf fileStat
          let headersA := [("Content-Type", contentType), ("ETag", etag)]
          if req.ifNoneMatch == some etag then ⟨.ok ⟨304, headersA, .empty⟩, true⟩
          else
            let headersB := headersA ++ [("Cache-Control", cacheControlFor ext)]
            if COMPRESSIBLE.contains ext && decide (1024 < fileStat.size) then
              if includesSub req.acceptEncoding "br" then
                ⟨.ok ⟨200, headersB ++ [("Content-Encoding", "br"), ("Vary", "Accept-Encoding")],
                  .compressed "br"⟩, true⟩
              else if includesSub req.acceptEncoding "gzip" then
                ⟨.ok ⟨200, headersB ++ [("Content-Encoding", "gzip"), ("Vary", "Accept-Encoding")],
                  .compressed "gzip"⟩, true⟩
              else ⟨.ok ⟨200, headersB, .fileData⟩, true⟩
            else ⟨.ok ⟨200, headersB, .fileData⟩, true⟩

/-- Status of a handler result, `none` when nothing was written. -/
def resultStatus (h : HandlerResult) : Option Nat :=
  match h.outcome with
  | .ok r => some r.status
  | .crash => none

/- ================================================================ -/
/- Load-in overlay (src/components/LoadInOverlay.tsx)                -/
/- ================================================================ -/

/-- Timing constants of LoadInOverlay.tsx lines 60-67, in
milliseconds (the source holds them in seconds and multiplies by 1000
at the call sites). -/
def INTRO_HOLD_MS : Nat := 400

/-- `ODOMETER_STAGGER` (0.07 s). -/
def ODOMETER_STAGGER_MS : Nat := 70

/-- `ODOMETER_DURATION` (0.6 s). -/
def ODOMETER_DURATION_MS : Nat := 600

/-- `getColumnCount` (LoadInOverlay.tsx lines 74-78). -/
def getColumnCount (w : Nat) : Nat :=
  if w < 640 then 8
  else if w < 1024 then 12
  else 16

/-- `Math.ceil(a / b)` for nonnegative integers. JavaScript division
by zero gives Infinity/NaN; in this Nat model division by zero gives
0 (only reached when the viewport width is 0, where the coverage
claim fails under either semantics). -/
def jsCeilDiv (a b : Nat) : Nat := (a + b - 1) / b

/-- `GridSpec` (LoadInOverlay.tsx lines 80-86). -/
structure GridSpec where
  cols : Nat
  rows : Nat
  blockW : Nat
  blockH : Nat
  vh : Nat
deriving DecidableEq, Repr

/-- `computeGrid` (LoadInOverlay.tsx lines 88-96), with the
`window.innerWidth`/`window.innerHeight` reads made explicit
parameters. -/
def computeGrid (w h : Nat) : GridSpec :=
  let cols := getColumnCount w
  let blockW := jsCeilDiv w cols
  let blockH := blockW
  let rows := jsCeilDiv h blockH + 1
  ⟨cols, rows, blockW, blockH, h⟩

/-- The property claimed of `computeGrid`: strictly positive counts
and full coverage of the viewport plus one extra row. -/
def gridClaim (w h : Nat) : Prop :=
  let g := computeGrid w h
  0 < g.cols ∧ 0 < g.rows ∧ w ≤ g.cols * g.blockW ∧ h + g.blockH ≤ g.rows * g.blockH

instance (w h : Nat) : Decidable (gridClaim w h) := by
  unfold gridClaim; infer_instance

/-- One parsed character of the price string (`parsePriceChars`,
LoadInOverlay.tsx lines 99-104); `/[0-9]/.test(char)` is exactly
`Char.isDigit`. -/
structure PriceChar where
  char : Char
  isDigit : Bool
deriving DecidableEq, Repr

/-- `parsePriceChars` (LoadInOverlay.tsx lines 99-104). -/
def parsePriceChars (price : String) : List PriceChar :=
  price.data.map (fun c => ⟨c, c.isDigit⟩)

/-- One rendered element of `StockPriceOdometer`: a static character,
or an `OdometerDigit` strip carrying its digit index and whether the
`onComplete` callback was attached (`isLast ? onComplete : undefined`,
LoadInOverlay.tsx line 221). -/
inductive PriceElem where
  | staticChar : Char → PriceElem
  | digitStrip : Char → Nat → Bool → PriceElem
deriving DecidableEq, Repr

/-- The render loop of `StockPriceOdometer` (LoadInOverlay.tsx lines
195-224): non-digits render statically, digits get a strip whose
index is the running digit counter, and the callback is attached
exactly when that index equals `totalDigits - 1`. -/
def renderChars (totalDigits : Nat) : List PriceChar → Nat → List PriceElem
  | [], _ => []
  | c :: rest, di =>
    if c.isDigit then
      .digitStrip c.char di (di == totalDigits - 1) :: renderChars totalDigits rest (di + 1)
    else
      .staticChar c.char :: renderChars totalDigits rest di

/-- Digit count of the parsed characters (`chars.filter(c => c.isDigit).length`,
LoadInOverlay.tsx line 183). -/
def totalDigitsOf (chars : List PriceChar) : Nat :=
  (chars.filter (fun c => c.isDigit)).length

/-- `StockPriceOdometer` rendered for a price string
(LoadInOverlay.tsx lines 173-227). -/
def renderOdometer (price : String) : List PriceElem :=
  let chars := parsePriceChars price
  renderChars (totalDigitsOf chars) chars 0

/-- Number of digit characters in a price string. -/
def digitCount (price : String) : Nat :=
  (price.data.filter Char.isDigit).length

/-- Whether an element is an animated digit strip. -/
def isStrip : PriceElem → Bool
  | .digitStrip _ _ _ => true
  | _ => false

/-- Number of animated digit strips rendered. -/
def stripCount (l : List PriceElem) : Nat := (l.filter isStrip).length

/-- Whether an element carries the `onComplete` callback. -/
def hasCallback : PriceElem → Bool
  | .digitStrip _ _ h => h
  | _ => false

/-- Whether any rendered element carries the completion callback. -/
def hasCompletionCallback (l : List PriceElem) : Bool := l.any hasCallback

/-- Digit indices of the strips, in render (left-to-right) order. -/
def stripIndices (l : List PriceElem) : List Nat :=
  l.filterMap (fun e =>
    match e with
    | .digitStrip _ i _ => some i
    | _ => none)

/-- Digit indices of the strips that carry the completion callback. -/
def callbackIndices (l : List PriceElem) : List Nat :=
  l.filterMap (fun e =>
    match e with
    | .digitStrip _ i true => some i
    | _ => none)

/-- When the strip of digit index `i` finishes: transition delay
`ODOMETER_STAGGER * digitIndex` plus duration `ODOMETER_DURATION`
(LoadInOverlay.tsx lines 141-145). -/
def stripFinishMs (i : Nat) : Nat := ODOMETER_STAGGER_MS * i + ODOMETER_DURATION_MS

/-- The overlay phases (LoadInOverlay.tsx lines 17-23), with their
order in the sequence. -/
inductive Phase where
  | intro
  | priceRoll
  | dayChange
  | fadeText
  | blocks
  | done
deriving DecidableEq, Repr

/-- Position of a phase in the declared sequence. -/
def Phase.idx : Phase → Nat
  | .intro => 0
  | .priceRoll => 1
  | .dayChange => 2
  | .fadeText => 3
  | .blocks => 4
  | .done => 5

/-- The overlay props and environment that stay fixed while the
sequencer runs: `forceReplay`, the reduced-motion preference, and the
price string fed to the odometer. -/
structure SeqConfig where
  forceReplay : Bool
  reducedMotion : Bool
  stockPrice : String
deriving DecidableEq, Repr

/-- The component state the sequencer mutates: the current phase
(single `useState<Phase>`, so exactly one phase is current at a time)
and the session flag (`useSessionOnce`; `markPlayed` sets it). -/
structure SeqState where
  phase : Phase
  sessionPlayed : Bool
deriving DecidableEq, Repr

/-- `shouldAnimate` (LoadInOverlay.tsx line 307) in the post-mount
states modelled here (`mounted` is true). -/
def shouldAnimate (cfg : SeqConfig) (st : SeqState) : Bool :=
  cfg.forceReplay || !st.sessionPlayed

/-- Whether the odometer is mounted: it renders inside the text layer
only for these phases (LoadInOverlay.tsx line 498). -/
def odometerShown (p : Phase) : Bool :=
  p == .priceRoll || p == .dayChange || p == .fadeText

/-- The phase transitions of LoadInOverlay.tsx, one constructor per
`setPhase` site, each with the guards under which that site can fire:
* `introTimer` — effect at lines 310-314, guarded by `shouldAnimate`
  and `phase === 'intro'`;
* `priceRollComplete` — the `POST_PRICE_HOLD` timer scheduled by
  `handlePriceRollComplete` (lines 353-355), reachable only via the
  odometer's `onComplete`, which requires the full-animation render
  (so `shouldAnimate` true and reduced motion off), a rendered strip
  carrying the callback, and the odometer mounted; the odometer first
  mounts in `priceRoll` and `priceRoll` is only left through this very
  transition or the reduced-motion skip, whose 600 ms timer cannot
  beat this 150 ms timer, so the transition fires from `priceRoll`;
* `dayChangeTimer` — effect at lines 317-321, guarded only by
  `phase === 'dayChange'`;
* `fadeTextTimer` — effect at lines 324-328, guarded only by
  `phase === 'fadeText'`;
* `blocksTimer` — effect at lines 331-340, guarded by
  `phase === 'blocks'` (the grid is non-null after mount); it also
  calls `markPlayed()`;
* `reducedMotionSkip` — effect at lines 343-350, guarded by
  `shouldAnimate` and the reduced-motion preference; it sets `done`
  and calls `markPlayed()` (`setPhase` to the value already held is a
  React no-op, hence the `phase ≠ done` guard). -/
inductive SeqStep (cfg : SeqConfig) : SeqState → SeqState → Prop
  | introTimer (st : SeqState) :
      shouldAnimate cfg st = true → st.phase = .intro →
      SeqStep cfg st ⟨.priceRoll, st.sessionPlayed⟩
  | priceRollComplete (st : SeqState) :
      shouldAnimate cfg st = true → cfg.reducedMotion = false →
      st.phase = .priceRoll →
      hasCompletionCallback (renderOdometer cfg.stockPrice) = true →
      SeqStep cfg st ⟨.dayChange, st.sessionPlayed⟩
  | dayChangeTimer (st : SeqState) :
      st.phase = .dayChange →
      SeqStep cfg st ⟨.fadeText, st.sessionPlayed⟩
  | fadeTextTimer (st : SeqState) :
      st.phase = .fadeText →
      SeqStep cfg st ⟨.blocks, st.sessionPlayed⟩
  | blocksTimer (st : SeqState) :
      st.phase = .blocks →
      SeqStep cfg st ⟨.done, true⟩
  | reducedMotionSkip (st : SeqState) :
      shouldAnimate cfg st = true → cfg.reducedMotion = true →
      st.phase ≠ .done →
      SeqStep cfg st ⟨.done, true⟩

/-- The timers the overlay can schedule. -/
inductive TimerId where
  | introHold
  | dayChangeHold
  | fadeTextHold
  | blocksDrop
  | reducedMotionSkip
  | postPriceHold
deriving DecidableEq, Repr

/-- Whether a timer is scheduled inside a `useEffect`:
true for the five effect timers (LoadInOverlay.tsx lines 312, 319,
326, 335, 345), false for the `POST_PRICE_HOLD` timer, which
`handlePriceRollComplete` (line 354) schedules inside an event
callback. -/
def scheduledViaEffect : TimerId → Bool
  | .postPriceHold => false
  | _ => true

/-- Whether the scheduling of a timer is paired with a cancellation:
each of the five effects returns `() => clearTimeout(t)` (lines 313,
320, 327, 339, 349); `handlePriceRollComplete` (line 354) discards
the `setTimeout` handle, so that timer is never cleared. -/
def clearedOnCleanup : TimerId → Bool
  | .postPriceHold => false
  | _ => true

/-- Which timers are (or can be) scheduled in a given post-mount
state: guards written exactly as in the corresponding effects; the
`postPriceHold` timer additionally requires the odometer to be
mounted with a callback-carrying strip, since only the completion
callback schedules it. -/
def scheduledTimers (cfg : SeqConfig) (st : SeqState) : List TimerId :=
  (if shouldAnimate cfg st && (st.phase == .intro) then [.introHold] else []) ++
  (if st.phase == .dayChange then [.dayChangeHold] else []) ++
  (if st.phase == .fadeText then [.fadeTextHold] else []) ++
  (if st.phase == .blocks then [.blocksDrop] else []) ++
  (if shouldAnimate cfg st && cfg.reducedMotion then [.reducedMotionSkip] else []) ++
  (if shouldAnimate cfg st && !cfg.reducedMotion && odometerShown st.phase &&
      hasCompletionCallback (renderOdometer cfg.stockPrice) then
    [.postPriceHold] else [])

/-- `isTextPhase` (LoadInOverlay.tsx lines 426-430). -/
def isTextPhase (p : Phase) : Bool :=
  p == .intro || p == .priceRoll || p == .dayChange || p == .fadeText

/-- What the overlay renders. -/
inductive RenderResult where
  | placeholder
  | null
  | reducedFallback
  | animation : Bool → Bool → Bool → RenderResult
deriving DecidableEq, Repr

/-- The render gates of LoadInOverlay.tsx lines 362-536: the FOUC
placeholder before mount, `null` when not animating or done, the
reduced-motion fallback, else the full animation (text layer,
odometer inside it, block grid). -/
def renderOverlay (cfg : SeqConfig) (st : SeqState) (mounted : Bool) : RenderResult :=
  if !mounted then .placeholder
  else if !(shouldAnimate cfg st) then .null
  else if st.phase == .done then .null
  else if cfg.reducedMotion then .reducedFallback
  else .animation (isTextPhase st.phase)
    (isTextPhase st.phase && odometerShown st.phase) (st.phase == .blocks)

example : decodeURIComponentM "/v.mp4" = some "/v.mp4" := by decide
example : decodeURIComponentM "/%" = none := by decide
example : decodeURIComponentM "/a%2e%2eb" = some "/a..b" := by decide
example : hasDotDot "/a..b" = true := by decide
example : extname "/srv/v.mp4" = ".mp4" := by decide
example : extname "/srv/.hidden" = "" := by decide
example : extname "/srv/noext" = "" := by decide
example : parseIntM "2" = some 2 := by decide
example :
    handle [("/srv/v.mp4", ⟨10, 7⟩)] ⟨"/v.mp4", some "bytes=2-", none, ""⟩ =
      ⟨.ok ⟨206,
        [("Content-Range", "bytes 2-9/10"),
         ("Accept-Ranges", "bytes"),
         ("Content-Length", "8"),
         ("Content-Type", "video/mp4")], .filePart (some 2) (some 9)⟩, true⟩ := by decide
example : computeGrid 1024 768 = ⟨16, 13, 64, 64, 768⟩ := by decide
example : gridClaim 1024 768 := by decide
example : ¬ gridClaim 0 1 := by decide
example : renderOdometer "$3.42" =
    [.staticChar '$', .digitStrip '3' 0 false, .staticChar '.',
     .digitStrip '4' 1 false, .digitStrip '2' 2 true] := by decide
example : callbackIndices (renderOdometer "$3.42") = [2] := by decide
example : stripCount (renderOdometer "$3.42") = 3 := by decide
example : hasCompletionCallback (renderOdometer "$") = false := by decide
example : renderOverlay ⟨false, false, "$3.42"⟩ ⟨.intro, true⟩ true = .null := by decide
example : scheduledTimers ⟨false, false, "$3.42"⟩ ⟨.intro, true⟩ = [] := by decide
example : scheduledTimers ⟨false, false, "$3.42"⟩ ⟨.intro, false⟩ = [.introHold] := by decide

/- ================================================================ -/
/- Claim theorems                                                    -/
/- ================================================================ -/

/-- C1: any request whose query-stripped, decoded path contains the
substring `..` is answered with status 403 and body "Forbidden", and
the filesystem is never consulted. -/
theorem c1_dotdot_403_no_fs (fs : FS) (req : Request) (url : String)
    (hdec : decodeURIComponentM (preparedUrl req.url) = some url)
    (hdd : hasDotDot url = true) :
    handle fs req = ⟨.ok ⟨403, [], .text "Forbidden"⟩, false⟩ := by
  unfold handle
  rw [hdec]
  simp [hdd]

/-- C1 witness: the concrete request `/../secret` decodes to a path
containing `..` and is rejected with 403 without touching the
filesystem. -/
theorem c1_witness :
    decodeURIComponentM (preparedUrl "/../secret") = some "/../secret" ∧
    handle [("/srv/index.html", ⟨9, 1⟩)] ⟨"/../secret", none, none, ""⟩ =
      ⟨.ok ⟨403, [], .text "Forbidden"⟩, false⟩ :=
  ⟨by decide,
   c1_dotdot_403_no_fs [("/srv/index.html", ⟨9, 1⟩)] ⟨"/../secret", none, none, ""⟩
     "/../secret" (by decide) (by decide)⟩

/-- C10: for the request URL `/%`, `decodeURIComponent` throws before
the `try` block is entered, so the handler writes no response at all,
whatever the filesystem holds: the `catch` producing 404 covers only
the file operations. -/
theorem c10_decode_crash (fs : FS) :
    handle fs ⟨"/%", none, none, ""⟩ = ⟨.crash, false⟩ := rfl

/-- C4 counterexample: an existing `.mp4` file requested with a
matching `If-None-Match` is served by the streamable branch, which
runs before the ETag comparison: the response status is 200, not 304,
refuting the claim for streamable extensions. -/
theorem c4_counterexample :
    List.lookup (serverRoot ++ "/v.mp4") [("/srv/v.mp4", (⟨5, 7⟩ : FileMeta))] =
      some ⟨5, 7⟩ ∧
    decodeURIComponentM (preparedUrl "/v.mp4") = some "/v.mp4" ∧
    resultStatus
      (handle [("/srv/v.mp4", ⟨5, 7⟩)]
        ⟨"/v.mp4", none, some (etagOf ⟨5, 7⟩), ""⟩) = some 200 := by decide

/-- C4 (amended): for every existing file whose extension is not in
the streamable set, a request whose `If-None-Match` equals the
computed ETag is answered 304 with no body (and the `Content-Type`
and `ETag` headers written so far). -/
theorem c4_etag_304 (fs : FS) (req : Request) (url : String) (m : FileMeta)
    (hdec : decodeURIComponentM (preparedUrl req.url) = some url)
    (hdd : hasDotDot url = false)
    (hstat : List.lookup (serverRoot ++ url) fs = some m)
    (hstream : STREAMABLE.contains (extname (serverRoot ++ url)) = false)
    (hinm : req.ifNoneMatch = some (etagOf m)) :
    handle fs req = ⟨.ok ⟨304,
      [("Content-Type", contentTypeFor (extname (serverRoot ++ url))),
       ("ETag", etagOf m)], .empty⟩, true⟩ := by
  have hs : extname (serverRoot ++ url) ∉ STREAMABLE := by simpa using hstream
  unfold handle
  rw [hdec]
  simp [hdd, hstat, hs, hinm]

/-- C4 witness: a matching conditional request for an existing `.css`
file yields 304 with empty body. -/
theorem c4_witness :
    STREAMABLE.contains (extname (serverRoot ++ "/style.css")) = false ∧
    handle [("/srv/style.css", ⟨5, 7⟩)] ⟨"/style.css", none, some (etagOf ⟨5, 7⟩), ""⟩ =
      ⟨.ok ⟨304,
        [("Content-Type", contentTypeFor (extname (serverRoot ++ "/style.css"))),
         ("ETag", etagOf ⟨5, 7⟩)], .empty⟩, true⟩ :=
  ⟨by decide,
   c4_etag_304 [("/srv/style.css", ⟨5, 7⟩)] ⟨"/style.css", none, some (etagOf ⟨5, 7⟩), ""⟩
     "/style.css" ⟨5, 7⟩ (by decide) (by decide) (by decide) (by decide) rfl⟩

/-- C5: a Range request on a streamable file of size S whose header
parses to a start with an empty end part is answered 206 with
`Content-Range: bytes start-end/S` for `end = min(start + 1MB - 1, S - 1)`,
`Content-Length = end - start + 1`, and `Accept-Ranges: bytes`. -/
theorem c5_range_default_end (fs : FS) (req : Request) (url s0 r : String)
    (m : FileMeta) (start : Int)
    (hdec : decodeURIComponentM (preparedUrl req.url) = some url)
    (hdd : hasDotDot url = false)
    (hstat : List.lookup (serverRoot ++ url) fs = some m)
    (hstream : STREAMABLE.contains (extname (serverRoot ++ url)) = true)
    (hr : req.rangeHeader = some r)
    (hparts : stringSplitChar '-' (String.mk (removeFirst "bytes=".data r.data)) = [s0, ""])
    (hstart : parseIntM s0 = some start) :
    handle fs req = ⟨.ok ⟨206,
      [("Content-Range", "bytes " ++ toString start ++ "-" ++
          toString (min (start + 1048575) ((m.size : Int) - 1)) ++ "/" ++ toString m.size),
       ("Accept-Ranges", "bytes"),
       ("Content-Length", toString (min (start + 1048575) ((m.size : Int) - 1) - start + 1)),
       ("Content-Type", contentTypeFor (extname (serverRoot ++ url)))],
      .filePart (some start) (some (min (start + 1048575) ((m.size : Int) - 1)))⟩, true⟩ := by
  have hs : extname (serverRoot ++ url) ∈ STREAMABLE := by simpa using hstream
  unfold handle
  rw [hdec]
  simp [hdd, hstat, hs, hr, hparts, hstart, jadd, jmin, jsub, jnumStr]

/-- C5 witness: `bytes=2-` on a 10-byte `.mp4` yields 206 with range
2-9/10 and length 8. -/
theorem c5_witness :
    parseIntM "2" = some 2 ∧
    handle [("/srv/v.mp4", ⟨10, 7⟩)] ⟨"/v.mp4", some "bytes=2-", none, ""⟩ =
      ⟨.ok ⟨206,
        [("Content-Range", "bytes " ++ toString (2 : Int) ++ "-" ++
            toString (min ((2 : Int) + 1048575) (((10 : Nat) : Int) - 1)) ++ "/" ++
            toString (10 : Nat)),
         ("Accept-Ranges", "bytes"),
         ("Content-Length", toString (min ((2 : Int) + 1048575) (((10 : Nat) : Int) - 1) - 2 + 1)),
         ("Content-Type", contentTypeFor (extname (serverRoot ++ "/v.mp4")))],
        .filePart (some 2) (some (min ((2 : Int) + 1048575) (((10 : Nat) : Int) - 1)))⟩, true⟩ :=
  ⟨by decide,
   c5_range_default_end [("/srv/v.mp4", ⟨10, 7⟩)] ⟨"/v.mp4", some "bytes=2-", none, ""⟩
     "/v.mp4" "2" "bytes=2-" ⟨10, 7⟩ 2 (by decide) (by decide) (by decide) (by decide)
     rfl (by decide) (by decide)⟩

/-- Ceiling division covers: `a ≤ b * ceil(a / b)` for positive `b`. -/
theorem le_mul_jsCeilDiv (a b : Nat) (hb : 0 < b) : a ≤ b * jsCeilDiv a b := by
  unfold jsCeilDiv
  have h1 := Nat.div_add_mod (a + b - 1) b
  have h2 : (a + b - 1) % b < b := Nat.mod_lt _ hb
  generalize hp : b * ((a + b - 1) / b) = p at h1 ⊢
  omega

/-- Ceiling division of a positive numerator is positive. -/
theorem pos_jsCeilDiv (a b : Nat) (ha : 1 ≤ a) (hb : 0 < b) : 0 < jsCeilDiv a b := by
  unfold jsCeilDiv
  have := (Nat.le_div_iff_mul_le hb).mpr (show 1 * b ≤ a + b - 1 by omega)
  omega

/-- C2 counterexample: at viewport width 0 (and height 1) the block
width `Math.ceil(0 / 8)` is 0, so the grid cannot cover the viewport:
`rows * blockH = 0 < h + blockH` (in JavaScript, `rows` is
`Math.ceil(1 / 0) + 1 = Infinity` and `rows * blockH` is `NaN`, so the
claimed inequality fails there as well). -/
theorem c2_counterexample : ¬ gridClaim 0 1 := by decide

/-- C2 (amended): for every viewport width `w ≥ 1` and every height
`h`, `computeGrid` yields strictly positive column and row counts with
`cols * blockW ≥ w` and `rows * blockH ≥ h + blockH`. -/
theorem c2_grid_covers (w h : Nat) (hw : 1 ≤ w) : gridClaim w h := by
  have hcols : 0 < getColumnCount w := by
    unfold getColumnCount
    split
    · norm_num
    · split <;> norm_num
  have hbw : 0 < jsCeilDiv w (getColumnCount w) := pos_jsCeilDiv w _ hw hcols
  have hcover : w ≤ getColumnCount w * jsCeilDiv w (getColumnCount w) :=
    le_mul_jsCeilDiv w _ hcols
  have hrows := le_mul_jsCeilDiv h (jsCeilDiv w (getColumnCount w)) hbw
  have goal4 : h + jsCeilDiv w (getColumnCount w) ≤
      (jsCeilDiv h (jsCeilDiv w (getColumnCount w)) + 1) * jsCeilDiv w (getColumnCount w) := by
    calc h + jsCeilDiv w (getColumnCount w)
        ≤ jsCeilDiv w (getColumnCount w) * jsCeilDiv h (jsCeilDiv w (getColumnCount w)) +
            jsCeilDiv w (getColumnCount w) := Nat.add_le_add_right hrows _
      _ = (jsCeilDiv h (jsCeilDiv w (getColumnCount w)) + 1) * jsCeilDiv w (getColumnCount w) := by
          ring
  exact ⟨hcols, Nat.succ_pos _, hcover, goal4⟩

/-- C2 witness: the amended claim holds at the concrete viewport
1024 x 768. -/
theorem c2_witness : 1 ≤ 1024 ∧ gridClaim 1024 768 :=
  ⟨by decide, c2_grid_covers 1024 768 (by decide)⟩

/-- Unfolding `renderChars` on a digit character. -/
theorem renderChars_cons_digit (T : Nat) (c : PriceChar) (rest : List PriceChar) (di : Nat)
    (h : c.isDigit = true) :
    renderChars T (c :: rest) di =
      .digitStrip c.char di (di == T - 1) :: renderChars T rest (di + 1) := by
  simp [renderChars, h]

/-- Unfolding `renderChars` on a non-digit character. -/
theorem renderChars_cons_static (T : Nat) (c : PriceChar) (rest : List PriceChar) (di : Nat)
    (h : c.isDigit = false) :
    renderChars T (c :: rest) di = .staticChar c.char :: renderChars T rest di := by
  simp [renderChars, h]

/-- `stripIndices` past a strip element. -/
theorem stripIndices_cons_strip (c : Char) (i : Nat) (b : Bool) (l : List PriceElem) :
    stripIndices (.digitStrip c i b :: l) = i :: stripIndices l := rfl

/-- `stripIndices` past a static element. -/
theorem stripIndices_cons_static (c : Char) (l : List PriceElem) :
    stripIndices (.staticChar c :: l) = stripIndices l := rfl

/-- `callbackIndices` past a callback-carrying strip. -/
theorem callbackIndices_cons_true (c : Char) (i : Nat) (l : List PriceElem) :
    callbackIndices (.digitStrip c i true :: l) = i :: callbackIndices l := rfl

/-- `callbackIndices` past a strip without the callback. -/
theorem callbackIndices_cons_false (c : Char) (i : Nat) (l : List PriceElem) :
    callbackIndices (.digitStrip c i false :: l) = callbackIndices l := rfl

/-- `callbackIndices` past a static element. -/
theorem callbackIndices_cons_static (c : Char) (l : List PriceElem) :
    callbackIndices (.staticChar c :: l) = callbackIndices l := rfl

/-- Digit count of a cons. -/
theorem totalDigitsOf_cons (c : PriceChar) (rest : List PriceChar) :
    totalDigitsOf (c :: rest) =
      if c.isDigit then totalDigitsOf rest + 1 else totalDigitsOf rest := by
  by_cases h : c.isDigit = true <;> simp [totalDigitsOf, h]

/-- The strips of the odometer render carry the digit indices
`di, di+1, ...`, one per digit character, in order. -/
theorem stripIndices_renderChars (T : Nat) (chars : List PriceChar) :
    ∀ di, stripIndices (renderChars T chars di) = List.range' di (totalDigitsOf chars) := by
  induction chars with
  | nil => intro di; rfl
  | cons c rest ih =>
    intro di
    by_cases h : c.isDigit = true
    · rw [renderChars_cons_digit T c rest di h, stripIndices_cons_strip, ih (di + 1),
        totalDigitsOf_cons]
      simp only [h, if_true]
      rfl
    · rw [renderChars_cons_static T c rest di (by simpa using h), stripIndices_cons_static,
        ih di, totalDigitsOf_cons]
      simp [h]

/-- The callback-carrying strips of the odometer render are exactly
those whose digit index equals `totalDigits - 1`. -/
theorem callbackIndices_renderChars (T : Nat) (chars : List PriceChar) :
    ∀ di, callbackIndices (renderChars T chars di) =
      (List.range' di (totalDigitsOf chars)).filter (fun i => i == T - 1) := by
  induction chars with
  | nil => intro di; rfl
  | cons c rest ih =>
    intro di
    by_cases h : c.isDigit = true
    · rw [renderChars_cons_digit T c rest di h, totalDigitsOf_cons]
      simp only [h, if_true]
      rw [show List.range' di (totalDigitsOf rest + 1) =
        di :: List.range' (di + 1) (totalDigitsOf rest) from rfl, List.filter_cons]
      by_cases hdi : di = T - 1
      · have hb : (di == T - 1) = true := by simp [hdi]
        rw [hb, callbackIndices_cons_true, ih (di + 1)]
        simp [hb]
      · have hb : (di == T - 1) = false := by simp [hdi]
        rw [hb, callbackIndices_cons_false, ih (di + 1)]
        simp [hb]
    · rw [renderChars_cons_static T c rest di (by simpa using h), callbackIndices_cons_static,
        ih di, totalDigitsOf_cons]
      simp [h]

/-- Filtering an interval for one value keeps exactly that value when
it lies in the interval. -/
theorem filter_beq_range' (x : Nat) : ∀ (n s : Nat),
    (List.range' s n).filter (fun i => i == x) =
      if s ≤ x ∧ x < s + n then [x] else [] := by
  intro n
  induction n with
  | zero =>
    intro s
    have hn : ¬ (s ≤ x ∧ x < s + 0) := by omega
    simp [List.range', hn]
  | succ n ih =>
    intro s
    rw [show List.range' s (n + 1) = s :: List.range' (s + 1) n from rfl]
    by_cases hs : s = x
    · subst hs
      have hc1 : ¬ (s + 1 ≤ s ∧ s < s + 1 + n) := by omega
      have hc2 : s ≤ s ∧ s < s + (n + 1) := by omega
      simp [ih (s + 1), hc1, hc2]
    · simp only [List.filter_cons]
      have hb : (s == x) = false := by simp [hs]
      rw [hb, ih (s + 1)]
      have hiff : (s + 1 ≤ x ∧ x < s + 1 + n) ↔ (s ≤ x ∧ x < s + (n + 1)) := by omega
      simp only [hiff]
      simp

/-- Strip count equals the number of strip indices. -/
theorem stripCount_eq_length (l : List PriceElem) :
    stripCount l = (stripIndices l).length := by
  induction l with
  | nil => rfl
  | cons e rest ih =>
    cases e <;> simp [stripCount, stripIndices, isStrip, ih] <;>
      simpa [stripCount, stripIndices] using ih

/-- Parsing preserves the digit count. -/
theorem totalDigits_parse (p : String) :
    totalDigitsOf (parsePriceChars p) = digitCount p := by
  suffices hl : ∀ l : List Char,
      ((l.map (fun c => (⟨c, c.isDigit⟩ : PriceChar))).filter (fun pc => pc.isDigit)).length =
        (l.filter Char.isDigit).length by
    simpa [totalDigitsOf, parsePriceChars, digitCount] using hl p.data
  intro l
  induction l with
  | nil => rfl
  | cons c rest ih => by_cases h : c.isDigit = true <;> simp [h, ih]

/-- A render has a callback-carrying element iff its callback index
list is nonempty. -/
theorem hasCompletionCallback_eq (l : List PriceElem) :
    hasCompletionCallback l = !(callbackIndices l).isEmpty := by
  induction l with
  | nil => rfl
  | cons e rest ih =>
    cases e with
    | staticChar c =>
      rw [show hasCompletionCallback (.staticChar c :: rest) = hasCompletionCallback rest from by
        simp [hasCompletionCallback, hasCallback], callbackIndices_cons_static]
      exact ih
    | digitStrip c i b =>
      cases b
      · rw [show hasCompletionCallback (.digitStrip c i false :: rest) =
            hasCompletionCallback rest from by
          simp [hasCompletionCallback, hasCallback], callbackIndices_cons_false]
        exact ih
      · rw [show hasCompletionCallback (.digitStrip c i true :: rest) = true from by
          simp [hasCompletionCallback, hasCallback], callbackIndices_cons_true]
        rfl

/-- A price string without digits renders no element carrying the
completion callback. -/
theorem noDigit_noCallback (p : String) (h : digitCount p = 0) :
    hasCompletionCallback (renderOdometer p) = false := by
  have ht : totalDigitsOf (parsePriceChars p) = 0 := by rw [totalDigits_parse]; exact h
  have hc := callbackIndices_renderChars (totalDigitsOf (parsePriceChars p)) (parsePriceChars p) 0
  rw [hasCompletionCallback_eq, show renderOdometer p =
    renderChars (totalDigitsOf (parsePriceChars p)) (parsePriceChars p) 0 from rfl, hc, ht]
  rfl

/-- C3 counterexample: for the digit-free price string `"$"` no
rendered element carries the completion callback, so the callback can
never fire — refuting "fires exactly once" for arbitrary price
strings. -/
theorem c3_counterexample : hasCompletionCallback (renderOdometer "$") = false := by decide

/-- C3 (amended): for every price string containing at least one
digit, the render has exactly one animated strip per digit character
(indices `0..n-1` left to right), exactly one element carries the
completion callback — the strip of the last digit, index `n-1` — and
that strip finishes no earlier than any other strip
(`stagger * i + duration` is maximal at `i = n-1`). -/
theorem c3_odometer_shape (price : String) (h : 1 ≤ digitCount price) :
    stripCount (renderOdometer price) = digitCount price ∧
    stripIndices (renderOdometer price) = List.range' 0 (digitCount price) ∧
    callbackIndices (renderOdometer price) = [digitCount price - 1] ∧
    ∀ i ∈ stripIndices (renderOdometer price),
      stripFinishMs i ≤ stripFinishMs (digitCount price - 1) := by
  have hT := totalDigits_parse price
  have hun : renderOdometer price =
      renderChars (totalDigitsOf (parsePriceChars price)) (parsePriceChars price) 0 := rfl
  have hidx : stripIndices (renderOdometer price) = List.range' 0 (digitCount price) := by
    rw [hun, stripIndices_renderChars, hT]
  have hcb : callbackIndices (renderOdometer price) = [digitCount price - 1] := by
    rw [hun, callbackIndices_renderChars, hT, filter_beq_range' (digitCount price - 1)]
    have : 0 ≤ digitCount price - 1 ∧ digitCount price - 1 < 0 + digitCount price := by omega
    simp [this]
    omega
  refine ⟨?_, hidx, hcb, ?_⟩
  · rw [stripCount_eq_length, hidx]
    simp
  · intro i hi
    rw [hidx] at hi
    have : 0 ≤ i ∧ i < 0 + digitCount price := by
      constructor
      · omega
      · exact (List.mem_range'_1.mp hi).2
    unfold stripFinishMs ODOMETER_STAGGER_MS ODOMETER_DURATION_MS
    omega

/-- C3 witness: the amended claim, instantiated at the default price
string `"$3.42"` (three digits; callback on index 2). -/
theorem c3_witness :
    1 ≤ digitCount "$3.42" ∧
    (stripCount (renderOdometer "$3.42") = digitCount "$3.42" ∧
     stripIndices (renderOdometer "$3.42") = List.range' 0 (digitCount "$3.42") ∧
     callbackIndices (renderOdometer "$3.42") = [digitCount "$3.42" - 1] ∧
     ∀ i ∈ stripIndices (renderOdometer "$3.42"),
       stripFinishMs i ≤ stripFinishMs (digitCount "$3.42" - 1)) :=
  ⟨by decide, c3_odometer_shape "$3.42" (by decide)⟩

/-- C6 counterexample: the `POST_PRICE_HOLD` timer that
`handlePriceRollComplete` schedules (LoadInOverlay.tsx line 354) is
not paired with any cancellation — its `setTimeout` handle is
discarded and no cleanup ever clears it — refuting the claim that
every timer scheduled by the sequencer is paired with a cancellation. -/
theorem c6_counterexample : clearedOnCleanup TimerId.postPriceHold = false := rfl

/-- C6 (amended): every timer the overlay schedules inside a
`useEffect` is paired with a `clearTimeout` cancellation that runs on
unmount or dependency (phase) change; only the `POST_PRICE_HOLD`
timer scheduled in the `handlePriceRollComplete` event callback lacks
one. -/
theorem c6_effect_timers_cleared :
    ∀ t : TimerId, scheduledViaEffect t = true → clearedOnCleanup t = true := by
  intro t ht
  cases t
  case postPriceHold => exact absurd ht (by decide)
  all_goals rfl

/-- C6 witness: the intro-hold timer is scheduled via an effect and is
cleared on cleanup. -/
theorem c6_witness :
    scheduledViaEffect TimerId.introHold = true ∧ clearedOnCleanup TimerId.introHold = true :=
  ⟨rfl, c6_effect_timers_cleared TimerId.introHold rfl⟩

/-- C7: the phase machine is one-directional. The state carries a
single `phase` field (mirroring the single `useState<Phase>`), so
exactly one phase is current at a time; every transition strictly
increases the phase's position in the declared order, and hence along
any execution (reflexive-transitive closure) the position never
decreases and no phase is re-entered after it has been left (any
nonempty sequence of transitions strictly increases it). -/
theorem c7_phase_forward :
    (∀ (cfg : SeqConfig) (s t : SeqState), SeqStep cfg s t →
      Phase.idx s.phase < Phase.idx t.phase) ∧
    (∀ (cfg : SeqConfig) (s t : SeqState), Relation.ReflTransGen (SeqStep cfg) s t →
      Phase.idx s.phase ≤ Phase.idx t.phase) ∧
    (∀ (cfg : SeqConfig) (s t : SeqState), Relation.TransGen (SeqStep cfg) s t →
      Phase.idx s.phase < Phase.idx t.phase) := by
  have hstep : ∀ (cfg : SeqConfig) (s t : SeqState), SeqStep cfg s t →
      Phase.idx s.phase < Phase.idx t.phase := by
    intro cfg s t hst
    cases hst with
    | introTimer h1 h2 => rw [h2]; norm_num [Phase.idx]
    | priceRollComplete h1 h2 h3 h4 => rw [h3]; norm_num [Phase.idx]
    | dayChangeTimer h => rw [h]; norm_num [Phase.idx]
    | fadeTextTimer h => rw [h]; norm_num [Phase.idx]
    | blocksTimer h => rw [h]; norm_num [Phase.idx]
    | reducedMotionSkip h1 h2 h3 =>
      cases hph : s.phase
      case done => exact absurd hph h3
      all_goals norm_num [Phase.idx]
  refine ⟨hstep, ?_, ?_⟩
  · intro cfg s t h
    induction h with
    | refl => exact Nat.le_refl _
    | tail _ hbc ih => exact Nat.le_trans ih (Nat.le_of_lt (hstep _ _ _ hbc))
  · intro cfg s t h
    induction h with
    | single hst => exact hstep _ _ _ hst
    | tail _ hbc ih => exact Nat.lt_trans ih (hstep _ _ _ hbc)

/-- C7 witness: the intro-to-priceRoll transition strictly advances
the phase position. -/
theorem c7_witness :
    Phase.idx (⟨Phase.intro, false⟩ : SeqState).phase <
      Phase.idx (⟨Phase.priceRoll, false⟩ : SeqState).phase :=
  c7_phase_forward.1 ⟨true, false, "$3.42"⟩ ⟨.intro, false⟩ ⟨.priceRoll, false⟩
    (SeqStep.introTimer ⟨.intro, false⟩ rfl rfl)

/-- C8: with `forceReplay = false` and the session flag already set,
every state reachable after mount is the initial one (no transition
can fire), the overlay renders `null`, and no phase-transition timer
is scheduled. -/
theorem c8_session_noop (cfg : SeqConfig) (hfr : cfg.forceReplay = false) :
    ∀ s : SeqState, Relation.ReflTransGen (SeqStep cfg) ⟨.intro, true⟩ s →
      renderOverlay cfg s true = .null ∧ scheduledTimers cfg s = [] := by
  have hfix : ∀ s, Relation.ReflTransGen (SeqStep cfg) ⟨.intro, true⟩ s →
      s = ⟨.intro, true⟩ := by
    intro s h
    induction h with
    | refl => rfl
    | tail _ hbc ih =>
      rw [ih] at hbc
      cases hbc with
      | introTimer h1 h2 => simp [shouldAnimate, hfr] at h1
      | priceRollComplete h1 h2 h3 h4 => simp [shouldAnimate, hfr] at h1
      | dayChangeTimer h => simp at h
      | fadeTextTimer h => simp at h
      | blocksTimer h => simp at h
      | reducedMotionSkip h1 h2 h3 => simp [shouldAnimate, hfr] at h1
  intro s h
  rw [hfix s h]
  constructor
  · simp [renderOverlay, shouldAnimate, hfr]
  · simp [scheduledTimers, shouldAnimate, hfr, odometerShown]

/-- C8 witness: concrete configuration with the flag set and no force
replay — the initial state renders `null` with no timers. -/
theorem c8_witness :
    renderOverlay ⟨false, false, "$3.42"⟩ ⟨.intro, true⟩ true = .null ∧
    scheduledTimers ⟨false, false, "$3.42"⟩ ⟨.intro, true⟩ = [] :=
  c8_session_noop ⟨false, false, "$3.42"⟩ rfl ⟨.intro, true⟩ Relation.ReflTransGen.refl

/-- C9: if the price string contains no digit characters, the
odometer attaches the completion callback to no element, so the
transition out of `priceRoll` can never fire (absent the
reduced-motion bypass): every reachable state stays in
`intro`/`priceRoll`, never reaches `done`, and the session flag is
never marked. -/
theorem c9_digitless_stuck (cfg : SeqConfig)
    (hnd : digitCount cfg.stockPrice = 0) (hrm : cfg.reducedMotion = false) :
    hasCompletionCallback (renderOdometer cfg.stockPrice) = false ∧
    ∀ s : SeqState, Relation.ReflTransGen (SeqStep cfg) ⟨.intro, false⟩ s →
      s.phase ≠ .done ∧ s.sessionPlayed = false := by
  have hcb := noDigit_noCallback cfg.stockPrice hnd
  refine ⟨hcb, ?_⟩
  have hinv : ∀ s, Relation.ReflTransGen (SeqStep cfg) ⟨.intro, false⟩ s →
      (s.phase = .intro ∨ s.phase = .priceRoll) ∧ s.sessionPlayed = false := by
    intro s h
    induction h with
    | refl => exact ⟨Or.inl rfl, rfl⟩
    | tail _ hbc ih =>
      obtain ⟨hph, hsp⟩ := ih
      cases hbc with
      | introTimer h1 h2 => exact ⟨Or.inr rfl, hsp⟩
      | priceRollComplete h1 h2 h3 h4 => simp [hcb] at h4
      | dayChangeTimer h => rcases hph with h2 | h2 <;> simp [h2] at h
      | fadeTextTimer h => rcases hph with h2 | h2 <;> simp [h2] at h
      | blocksTimer h => rcases hph with h2 | h2 <;> simp [h2] at h
      | reducedMotionSkip h1 h2 h3 => simp [hrm] at h2
  intro s h
  obtain ⟨hph, hsp⟩ := hinv s h
  refine ⟨?_, hsp⟩
  rcases hph with h2 | h2 <;> rw [h2] <;> decide

/-- C9 witness: for the digit-free price `"$"`, the initial state
itself witnesses an execution that is not at `done` with the flag
unmarked, and no element carries the callback. -/
theorem c9_witness :
    digitCount (⟨false, false, "$"⟩ : SeqConfig).stockPrice = 0 ∧
    (hasCompletionCallback (renderOdometer (⟨false, false, "$"⟩ : SeqConfig).stockPrice) = false ∧
     ∀ s : SeqState, Relation.ReflTransGen (SeqStep ⟨false, false, "$"⟩) ⟨.intro, false⟩ s →
       s.phase ≠ .done ∧ s.sessionPlayed = false) :=
  ⟨by decide, c9_digitless_stuck ⟨false, false, "$"⟩ (by decide) rfl⟩
